import Mathlib

/-!
Shallow embedding of the aoc-cli repository (src/aoc-client/src/lib.rs and
src/src/main.rs): the date-resolution engine, configuration precedence
resolver, leaderboard ranking/rendering, response classification, and the
client builder, together with theorems settling the specification claims.

Conventions of the embedding:
* Rust `i32`/`u32`/`u64`/`usize` become `Int`/`Nat` (no arithmetic in the
  modelled code can overflow on the values it is ever called with, and no
  claim is about wrap-around behaviour).
* "now", observed through chrono in the fixed UTC-5 release timezone, is an
  explicit parameter: as a calendar view `ZonedNow` (year/month/day) for the
  functions that call `.year()/.month()/.day()`, and as an integer count of
  milliseconds for `day_unlocked`, which only compares instants.
* Fallible Rust functions returning `AocResult<T>` become `Except AocError T`;
  the one place a claim is about an `&mut self` method leaving the receiver
  unchanged on failure (`session_cookie`) is modelled state-passing style,
  returning the new builder together with an optional error.
* `HashMap` fields are modelled as association lists.
-/

namespace Aoc

/-! ### Constants (src/aoc-client/src/lib.rs lines 51-66) -/

def FIRST_EVENT_YEAR : Int := 2015

def DECEMBER : Nat := 12

def FIRST_PUZZLE_DAY : Nat := 1

def LAST_PUZZLE_DAY : Nat := 25

def DEFAULT_PUZZLE_INPUT : String := "input"

def DEFAULT_PUZZLE_DESCRIPTION : String := "puzzle.md"

def DEFAULT_COL_WIDTH : Nat := 80

/-- The current instant as chrono observes it in the fixed UTC-5 release
timezone: the triple `(now.year(), now.month(), now.day())`. -/
structure ZonedNow where
  year : Int
  month : Nat
  day : Nat
  deriving DecidableEq, Repr

/-! ### Error type (src/aoc-client/src/lib.rs lines 85-144); payload-free
variants for the error sources that are pure I/O are kept without payload. -/

inductive AocError where
  | InvalidPuzzleDate (day : Nat) (year : Int)
  | InvalidEventYear (year : Int)
  | InvalidPuzzleDay (day : Nat)
  | LockedPuzzle (day : Nat) (year : Int)
  | SessionFileNotFound
  | InvalidSessionCookie
  | AocResponseError
  | PrivateLeaderboardNotAvailable
  | PrivateLeaderboardNoId
  | ConfigError (msg : String)
  | ClientFieldMissing (field : String)
  | InvalidPuzzlePart
  | InvalidOutputWidth
  deriving DecidableEq, Repr

inductive SubmissionOutcome where
  | Correct
  | Incorrect
  | Wait
  | WrongLevel
  deriving DecidableEq, Repr

/-! ### DateResolver free functions (src/aoc-client/src/lib.rs lines 1078-1106) -/

/-- `last_unlocked_day` (lib.rs 1078-1094): latest unlocked puzzle day of
`year`, given "now" in the release timezone. -/
def last_unlocked_day (year : Int) (now : ZonedNow) : Option Nat :=
  if year = now.year ∧ now.month = DECEMBER then
    if now.day > LAST_PUZZLE_DAY then
      some LAST_PUZZLE_DAY
    else
      some now.day
  else if FIRST_EVENT_YEAR ≤ year ∧ year < now.year then
    some LAST_PUZZLE_DAY
  else
    none

/-- `last_unlocked_year` (lib.rs 1096-1106). -/
def last_unlocked_year (now : ZonedNow) : Int :=
  if now.month < DECEMBER then now.year - 1 else now.year

/-! ### Claim C1 -/

structure Member where
  id : Nat
  name : Option String
  local_score : Nat
  completion_day_level : List (Nat × List String)
  deriving DecidableEq, Repr

/-- `Member::count_stars` (lib.rs 1186-1191). -/
def Member.count_stars (m : Member) (day : Nat) : Nat :=
  ((m.completion_day_level.lookup day).map List.length).getD 0

/-- `impl Ord for Member` (lib.rs 1194-1201): increasing local score, then
decreasing id (Rust `Ordering::reverse` is `Ordering.swap`). -/
def memberCmp (a b : Member) : Ordering :=
  (compare a.local_score b.local_score).then ((compare a.id b.id).swap)

/-- The comparator actually used by the display step
(lib.rs 807: `members.sort_by_key(|member| Reverse(*member))`):
`Reverse(a).cmp(&Reverse(b))` is `b.cmp(&a)`. -/
def memberRevCmp (a b : Member) : Ordering :=
  memberCmp b a

/-- The non-strict order the display sort arranges members by: `a` may come
before `b` exactly when the reversed comparator does not say `gt`. -/
def memberLe (a b : Member) : Prop :=
  memberRevCmp a b ≠ Ordering.gt

instance : DecidableRel memberLe := fun a b => by
  unfold memberLe
  infer_instance

/-- The ordering claimed by the spec: local score descending, member id
ascending among equal scores. -/
def displayLe (a b : Member) : Prop :=
  b.local_score < a.local_score ∨
    (a.local_score = b.local_score ∧ a.id ≤ b.id)

/-- The display ordering of lib.rs 806-807: collect the members and sort them
by the `Reverse`d `Member` comparator. -/
def sortMembers (ms : List Member) : List Member :=
  List.insertionSort memberLe ms

/-- `members.iter().zip(1..)` (lib.rs 822): each member paired with its
1-based rank position. -/
def rankMembers (ms : List Member) : List (Member × Nat) :=
  (sortMembers ms).zip (List.range' 1 (sortMembers ms).length)

inductive StarGlyph where
  | gold
  | silver
  | dim
  | blank
  deriving DecidableEq, Repr

/-- The per-day glyph of a member row (lib.rs 824-835): blank beyond the last
unlocked day, otherwise gold / silver / dim by `count_stars`. -/
def starGlyph (m : Member) (lastUnlockedDay day : Nat) : StarGlyph :=
  if day > lastUnlockedDay then
    StarGlyph.blank
  else
    match m.count_stars day with
    | 2 => StarGlyph.gold
    | 1 => StarGlyph.silver
    | _ => StarGlyph.dim

/-- A member row of the star grid: glyphs for days
`FIRST_PUZZLE_DAY..=LAST_PUZZLE_DAY` (lib.rs 823). -/
def starRow (m : Member) (lastUnlockedDay : Nat) : List StarGlyph :=
  (List.range' FIRST_PUZZLE_DAY LAST_PUZZLE_DAY).map (starGlyph m lastUnlockedDay)

/-- The member of the spec's star-grid example: two tags on day 1, one tag on
day 2, a day-3 entry with no tags, nothing else. -/
def gridExampleMember : Member :=
  { id := 1
    name := none
    local_score := 0
    completion_day_level := [(1, ["1", "2"]), (2, ["1"]), (3, [])] }

structure AocClientBuilder where
  session_cookie : Option String
  year : Option Int
  day : Option Nat
  output_width : Nat
  overwrite_files : Bool
  input_filename : String
  puzzle_filename : String
  show_html_markup : Bool
  leaderboard_id : Option Nat
  deriving DecidableEq, Repr

/-- `AocClientBuilder::default` (lib.rs 861-887); the terminal width probed
by `term_size::dimensions()` (with fallback `DEFAULT_COL_WIDTH`) is the
parameter `termWidth`. -/
def builderDefault (termWidth : Nat) : AocClientBuilder :=
  { session_cookie := none
    year := none
    day := none
    output_width := termWidth
    overwrite_files := false
    input_filename := "input"
    puzzle_filename := "puzzle.md"
    show_html_markup := false
    leaderboard_id := none }

/-- `AocClientBuilder::year` (lib.rs 993-1000); named `setYear` because the

structure field projection already carries the source name. -/
def AocClientBuilder.setYear (b : AocClientBuilder) (year : Int) :
    Except AocError AocClientBuilder :=
  if FIRST_EVENT_YEAR ≤ year then
    Except.ok { b with year := some year }
  else
    Except.error (AocError.InvalidEventYear year)

/-- `AocClientBuilder::latest_event_year` (lib.rs 1002-1004). -/
def AocClientBuilder.latest_event_year (b : AocClientBuilder) (now : ZonedNow) :
    Except AocError AocClientBuilder :=
  b.setYear (last_unlocked_year now)

/-- `AocClientBuilder::day` (lib.rs 1006-1013). -/
def AocClientBuilder.setDay (b : AocClientBuilder) (day : Nat) :
    Except AocError AocClientBuilder :=
  if FIRST_PUZZLE_DAY ≤ day ∧ day ≤ LAST_PUZZLE_DAY then
    Except.ok { b with day := some day }
  else
    Except.error (AocError.InvalidPuzzleDay day)

/-- The body of `AocClientBuilder::latest_puzzle_day` (lib.rs 1020-1037)
after the event year is known. -/
def AocClientBuilder.latest_puzzle_day_core (b : AocClientBuilder)
    (event_year : Int) (now : ZonedNow) : Except AocError AocClientBuilder :=
  if event_year = now.year ∧ now.month = DECEMBER then
    if now.day ≤ LAST_PUZZLE_DAY then
      b.setDay now.day
    else
      b.setDay LAST_PUZZLE_DAY
  else if event_year < now.year then
    b.setDay LAST_PUZZLE_DAY
  else
    b.setDay FIRST_PUZZLE_DAY

/-- `AocClientBuilder::latest_puzzle_day` (lib.rs 1015-1038): when no year is
set yet it first runs `latest_event_year`, which on success stores exactly
`last_unlocked_year now`. -/
def AocClientBuilder.latest_puzzle_day (b : AocClientBuilder) (now : ZonedNow) :
    Except AocError AocClientBuilder :=
  match b.year with
  | some y => b.latest_puzzle_day_core y now
  | none =>
    match b.latest_event_year now with
    | Except.error e => Except.error e
    | Except.ok b2 => b2.latest_puzzle_day_core (last_unlocked_year now) now

/-- `AocClientBuilder::output_width` (lib.rs 1040-1047); named with a `set`
prefix for the same reason as `setYear`. -/
def AocClientBuilder.set_output_width (b : AocClientBuilder) (width : Nat) :
    Except AocError AocClientBuilder :=
  if 0 < width then
    Except.ok { b with output_width := width }
  else
    Except.error AocError.InvalidOutputWidth

/-! ### chrono date validity and the unlock instant

`build` calls `NaiveDate::from_ymd_opt(year, 12, day)`. chrono accepts a
(year, month, day) triple exactly when the year lies in its representable
range and the day fits the month; `NaiveDate::MAX` is December 31 of year
262142 in current chrono releases (262143 in releases before 0.4.32 — the
claims below only depend on the bound through concrete years far outside
both). -/

def chronoMinYear : Int := -262143

def chronoMaxYear : Int := 262142

def isLeapYear (y : Int) : Bool :=
  (y % 4 == 0 && y % 100 != 0) || y % 400 == 0

def chronoDaysInMonth (y : Int) (m : Nat) : Nat :=
  if m = 2 then
    if isLeapYear y then 29 else 28
  else if m = 4 ∨ m = 6 ∨ m = 9 ∨ m = 11 then
    30
  else
    31

/-- `NaiveDate::from_ymd_opt(y, m, d).is_some()`. -/
def chronoYmdValid (y : Int) (m d : Nat) : Prop :=
  chronoMinYear ≤ y ∧ y ≤ chronoMaxYear ∧
    1 ≤ m ∧ m ≤ 12 ∧ 1 ≤ d ∧ d ≤ chronoDaysInMonth y m

instance (y : Int) (m d : Nat) : Decidable (chronoYmdValid y m d) := by
  unfold chronoYmdValid
  infer_instance

/-- Days from the Unix epoch to `d`/December/`y` (the civil-from-days
algorithm specialised to December: the shifted month index is 9, so the
day-of-year is `274 + d`). -/
def daysFromCivilDec (y d : Int) : Int :=
  let era : Int := (if 0 ≤ y then y else y - 399) / 400
  let yoe : Int := y - era * 400
  let doe : Int := yoe * 365 + yoe / 4 - yoe / 100 + (274 + d)
  era * 146097 + doe - 719468

/-- The unlock instant of `d`/December/`y`: local midnight in the fixed UTC-5
release timezone, that is 05:00 UTC, in milliseconds since the Unix epoch. -/
def unlockInstantMs (y d : Int) : Int :=
  (daysFromCivilDec y d * 86400 + 5 * 3600) * 1000

/-! ### The built client -/

structure AocClient where
  session_cookie : String
  unlock_ms : Int
  year : Int
  day : Nat
  output_width : Nat
  overwrite_files : Bool
  input_filename : String
  puzzle_filename : String
  show_html_markup : Bool
  leaderboard_id : Option Nat
  deriving DecidableEq, Repr

/-- `AocClientBuilder::build` (lib.rs 890-925). The three mandatory-field
checks run in source order. `from_local_datetime(..).single()` on a
`FixedOffset` zone always returns `Single`, so the second
`InvalidPuzzleDate` branch of the source is modelled as succeeding. -/
def AocClientBuilder.build (b : AocClientBuilder) : Except AocError AocClient :=
  match b.session_cookie, b.year, b.day with
  | none, _, _ => Except.error (AocError.ClientFieldMissing "session cookie")
  | some _, none, _ => Except.error (AocError.ClientFieldMissing "year")
  | some _, some _, none => Except.error (AocError.ClientFieldMissing "day")
  | some cookie, some year, some day =>
    if chronoYmdValid year DECEMBER day then
      Except.ok
        { session_cookie := cookie
          unlock_ms := unlockInstantMs year day
          year := year
          day := day
          output_width := b.output_width
          overwrite_files := b.overwrite_files
          input_filename := b.input_filename
          puzzle_filename := b.puzzle_filename
          show_html_markup := b.show_html_markup
          leaderboard_id := b.leaderboard_id }
    else
      Except.error (AocError.InvalidPuzzleDate day year)

/-! ### Claim C8 -/

/-- `AocClient::day_unlocked` (lib.rs 224-230): true iff the signed duration
from the unlock instant to now is at least zero milliseconds. -/
def day_unlocked (c : AocClient) (now_ms : Int) : Bool :=
  decide (0 ≤ now_ms - c.unlock_ms)

def RIGHT_ANSWER_PHRASE : List Char :=
  "That\x27s the right answer".toList

def WRONG_ANSWER_PHRASE : List Char :=
  "That\x27s not the right answer".toList

def TOO_RECENT_PHRASE : List Char :=
  "You gave an answer too recently".toList

def WRONG_LEVEL_PHRASE : List Char :=
  "You don\x27t seem to be solving the right level".toList

/-- The classification chain of `AocClient::submit_answer` (lib.rs 335-347),
applied to the extracted response body. -/
def classify_submission (body : List Char) : Except AocError SubmissionOutcome :=
  if RIGHT_ANSWER_PHRASE <:+: body then
    Except.ok SubmissionOutcome.Correct
  else if WRONG_ANSWER_PHRASE <:+: body then
    Except.ok SubmissionOutcome.Incorrect
  else if TOO_RECENT_PHRASE <:+: body then
    Except.ok SubmissionOutcome.Wait
  else if WRONG_LEVEL_PHRASE <:+: body then
    Except.ok SubmissionOutcome.WrongLevel
  else
    Except.error AocError.AocResponseError

/-- Rust `char::is_whitespace`: the Unicode White_Space characters. -/
def isRustWhitespace (c : Char) : Bool :=
  c == '\t' || c == '\n' || c == '\u000b' || c == '\u000c' || c == '\r' ||
  c == ' ' || c == '\u0085' || c == '\u00a0' || c == '\u1680' ||
  (decide ('\u2000' ≤ c) && decide (c ≤ '\u200a')) ||
  c == '\u2028' || c == '\u2029' || c == '\u202f' || c == '\u205f' ||
  c == '\u3000'

/-- Rust `str::trim`: strip leading and trailing whitespace. -/
def rustTrim (s : String) : String :=
  (((s.toList.dropWhile isRustWhitespace).reverse.dropWhile
      isRustWhitespace).reverse).asString

/-- Rust `char::is_ascii_hexdigit`. -/
def isAsciiHexDigit (c : Char) : Bool :=
  c.isDigit || (decide ('a' ≤ c) && decide (c ≤ 'f')) ||
    (decide ('A' ≤ c) && decide (c ≤ 'F'))

/-- `AocClientBuilder::session_cookie` (lib.rs 927-937), state-passing to
capture that the `&mut self` receiver is untouched when the method returns
`InvalidSessionCookie`. -/
def AocClientBuilder.session_cookie_st (b : AocClientBuilder) (s : String) :
    AocClientBuilder × Option AocError :=
  let cookie := rustTrim s
  if cookie.isEmpty || !(cookie.toList.all isAsciiHexDigit) then
    (b, some AocError.InvalidSessionCookie)
  else
    ({ b with session_cookie := some cookie }, none)

structure Config where
  year : Option Int
  day : Option Nat
  session_file : Option String
  width : Option Nat
  input_filename : Option String
  description_filename : Option String
  private_leaderboard_id : Option Nat
  deriving DecidableEq, Repr

/-- `AocClient::set_config` (lib.rs 685-746): the pure update of the loaded
config by the supplied arguments; the surrounding config-file lookup and the
final write are I/O around this update. -/
def set_config (config : Config) (year : Option Int) (day : Option Nat)
    (session_filename : Option String) (width : Option Nat)
    (input_filename : Option String) (description_filename : Option String)
    (private_leaderboard_id : Option Nat) : Config :=
  let config := match year with
    | some new_year => { config with year := some new_year }
    | none => config
  let config := match day with
    | some new_day => { config with day := some new_day }
    | none => config
  let config := match session_filename with
    | some session_file => { config with session_file := some session_file }
    | none => config
  let config := match width with
    | some new_width => { config with width := some new_width }
    | none => config
  let config := match input_filename with
    | some input_file => { config with input_filename := some input_file }
    | none => config
  let config := match description_filename with
    | some description_file =>
      { config with description_filename := some description_file }
    | none => config
  let config := match private_leaderboard_id with
    | some leaderboard_id =>
      { config with private_leaderboard_id := some leaderboard_id }
    | none => config
  config

/-- The global CLI arguments that `build_client` consumes (args.rs): the two
filename arguments carry clap defaults `DEFAULT_PUZZLE_INPUT` /
`DEFAULT_PUZZLE_DESCRIPTION`, so they are plain strings, not options. -/
structure Args where
  year : Option Int
  day : Option Nat
  session_file : Option String
  width : Option Nat
  overwrite : Bool
  input_file : String
  puzzle_file : String
  show_html_markup : Bool
  deriving DecidableEq, Repr

/-- Where `build_client` obtains the session cookie from: an explicit file
(CLI or config), or the default lookup chain (environment variable, then the
well-known home / config-directory files). -/
inductive SessionSource where
  | fromFile (path : String)
  | defaultLocations
  deriving DecidableEq, Repr

/-- The session-source selection of main.rs 75-82: CLI `--session-file`
first, else the config file's `session_file`, else the default locations. -/
def resolveSessionSource (argSession cfgSession : Option String) :
    SessionSource :=
  match argSession, cfgSession with
  | some file, _ => SessionSource.fromFile file
  | none, some file => SessionSource.fromFile file
  | none, none => SessionSource.defaultLocations

/-- The joint (year, day) match of main.rs 85-122, arm for arm: the first
four alternatives are "specific year, specific day", then "specific year,
unspecified day", then "unspecified year, specific day", then both
unspecified. -/
def resolveYearDay (b : AocClientBuilder) (argYear : Option Int)
    (argDay : Option Nat) (cfgYear : Option Int) (cfgDay : Option Nat)
    (now : ZonedNow) : Except AocError AocClientBuilder :=
  match argYear, argDay, cfgYear, cfgDay with
  | some year, some day, _, _ =>
    b.setYear year >>= fun b => b.setDay day
  | some year, none, _, some day =>
    b.setYear year >>= fun b => b.setDay day
  | none, some day, some year, _ =>
    b.setYear year >>= fun b => b.setDay day
  | none, none, some year, some day =>
    b.setYear year >>= fun b => b.setDay day
  | some year, none, _, none =>
    b.setYear year >>= fun b => b.latest_puzzle_day now
  | none, none, some year, none =>
    b.setYear year >>= fun b => b.latest_puzzle_day now
  | none, some day, none, _ =>
    b.latest_event_year now >>= fun b => b.setDay day
  | none, none, none, some day =>
    b.latest_event_year now >>= fun b => b.setDay day
  | none, none, none, none =>
    b.latest_event_year now >>= fun b => b.latest_puzzle_day now

/-- The width match of main.rs 124-129: CLI width, else config width, else
leave the builder default untouched. -/
def resolveWidth (b : AocClientBuilder) (argWidth cfgWidth : Option Nat) :
    Except AocError AocClientBuilder :=
  match argWidth, cfgWidth with
  | some width, _ => b.set_output_width width
  | none, some width => b.set_output_width width
  | none, none => Except.ok b

/-- The input-filename match of main.rs 132-147: the config-file name is used
only when the CLI value still equals the compiled-in default. -/
def resolveInputFilename (b : AocClientBuilder) (cfgInput : Option String)
    (argInput : String) : AocClientBuilder :=
  match cfgInput, argInput == DEFAULT_PUZZLE_INPUT with
  | some input_file, true => { b with input_filename := input_file }
  | _, _ => { b with input_filename := argInput }

/-- The description-filename match of main.rs 150-165, same sentinel
pattern. -/
def resolvePuzzleFilename (b : AocClientBuilder) (cfgDescription : Option String)
    (argPuzzle : String) : AocClientBuilder :=
  match cfgDescription, argPuzzle == DEFAULT_PUZZLE_DESCRIPTION with
  | some description_file, true => { b with puzzle_filename := description_file }
  | _, _ => { b with puzzle_filename := argPuzzle }

/-- The tail of `build_client` (main.rs 167-172): the three plain setters
`overwrite_files`, `show_html_markup` and `leaderboard_id` applied in a row
before `build`. -/
def finalizeBuilder (b : AocClientBuilder) (args : Args) (config : Config) :
    AocClientBuilder :=
  { b with
    overwrite_files := args.overwrite
    show_html_markup := args.show_html_markup
    leaderboard_id := config.private_leaderboard_id }

/-- `build_client` (main.rs 71-173). Reading the chosen session source is
I/O; the oracle `readSource` supplies the text that reading each source
would produce, and the cookie validation applied to it is the real
`session_cookie` setter. -/
def build_client (args : Args) (config : Config) (now : ZonedNow)
    (termWidth : Nat) (readSource : SessionSource → String) :
    Except AocError AocClient :=
  match (builderDefault termWidth).session_cookie_st
      (readSource (resolveSessionSource args.session_file
        config.session_file)) with
  | (_, some e) => Except.error e
  | (b, none) =>
    match resolveYearDay b args.year args.day config.year config.day now with
    | Except.error e => Except.error e
    | Except.ok b =>
      match resolveWidth b args.width config.width with
      | Except.error e => Except.error e
      | Except.ok b =>
        (finalizeBuilder
          (resolvePuzzleFilename
            (resolveInputFilename b config.input_filename args.input_file)
            config.description_filename args.puzzle_file)
          args config).build

/-- The leaderboard-id selection of `AocClient::show_private_leaderboard`
(lib.rs 780-789): the id passed on the command line wins, else the one the
client carries from the config file, else `PrivateLeaderboardNoId`. -/
def resolve_leaderboard_id (c : AocClient) (arg : Option Nat) :
    Except AocError Nat :=
  match arg with
  | some id => Except.ok id
  | none =>
    match c.leaderboard_id with
    | some id => Except.ok id
    | none => Except.error AocError.PrivateLeaderboardNoId

/-! ### Field lemmas about the builder pipeline, used for claims C3/C4 -/

/-- The CLI arguments of the C3 witness scenario: explicit year and width, a
non-default puzzle filename, everything else left to the config file or the
defaults. -/
def c3ExampleArgs : Args :=
  { year := some 2022
    day := none
    session_file := none
    width := some 100
    overwrite := false
    input_file := "input"
    puzzle_file := "custom.md"
    show_html_markup := false }

/-- The config file of the C3 witness scenario. -/
def c3ExampleConfig : Config :=
  { year := none
    day := some 3
    session_file := some "cfg_sess"
    width := some 50
    input_filename := some "cfg_in"
    description_filename := some "cfg_desc.md"
    private_leaderboard_id := some 7 }

/-- The session-reading oracle of the C3 witness scenario. -/
def c3ExampleRead : SessionSource → String :=
  fun _ => " deadbeef "

/-- The client that `build_client` produces in the C3 witness scenario. -/
def c3ExampleClient : AocClient :=
  { session_cookie := "deadbeef"
    unlock_ms := unlockInstantMs 2022 3
    year := 2022
    day := 3
    output_width := 100
    overwrite_files := false
    input_filename := "cfg_in"
    puzzle_filename := "custom.md"
    show_html_markup := false
    leaderboard_id := some 7 }

/-! ## Theorems -/

/-- Claim C1 as frozen is false on the code: year 2014 is strictly less than
the current year (taking today, 2026-10-12, as "now" in the release
timezone), yet `last_unlocked_day` returns `none` for it, not `some 25`,
because the code also requires `year >= FIRST_EVENT_YEAR`. -/
theorem c1_counterexample :
    (2014 : Int) < (ZonedNow.mk 2026 10 12).year ∧
      last_unlocked_day 2014 (ZonedNow.mk 2026 10 12) = none := by
  constructor
  · decide
  · rfl

/-- Claim C1, amended: for every year `y` with `2015 ≤ y` strictly below the
current year (as observed in the fixed UTC-5 release timezone),
`last_unlocked_day` returns `some 25`: the entire past event is unlocked. -/
theorem c1_last_unlocked_day_past_year (y : Int) (now : ZonedNow)
    (hfirst : FIRST_EVENT_YEAR ≤ y) (hpast : y < now.year) :
    last_unlocked_day y now = some LAST_PUZZLE_DAY := by
  unfold last_unlocked_day
  rw [if_neg, if_pos ⟨hfirst, hpast⟩]
  rintro ⟨hy, -⟩
  omega

/-- Witness for C1's amended theorem at year 2022, now = 2026-10-12. -/
theorem c1_witness :
    last_unlocked_day 2022 (ZonedNow.mk 2026 10 12) = some LAST_PUZZLE_DAY :=
  c1_last_unlocked_day_past_year 2022 (ZonedNow.mk 2026 10 12)
    (by decide) (by decide)

/-! ### Leaderboard members (src/aoc-client/src/lib.rs lines 1165-1213);
`completion_day_level: HashMap<PuzzleDay, DayLevel>` with
`DayLevel = HashMap<String, CollectedStar>` is modelled as an association
list from day to the list of level tags recorded for that day. -/

theorem memberLe_iff (a b : Member) : memberLe a b ↔ displayLe a b := by
  unfold memberLe memberRevCmp memberCmp displayLe
  rcases Nat.lt_trichotomy a.local_score b.local_score with h | h | h
  · rw [Nat.compare_eq_gt.mpr h]
    simp only [Ordering.then]
    constructor
    · intro hfalse
      exact absurd rfl hfalse
    · intro hd
      omega
  · rw [← h, Nat.compare_eq_eq.mpr rfl]
    simp only [Ordering.then]
    rcases Nat.lt_trichotomy a.id b.id with h2 | h2 | h2
    · rw [Nat.compare_eq_gt.mpr h2]
      simp only [Ordering.swap]
      constructor
      · intro _
        right
        exact ⟨by simp, by omega⟩
      · intro _ hfalse
        cases hfalse
    · rw [← h2, Nat.compare_eq_eq.mpr rfl]
      simp only [Ordering.swap]
      constructor
      · intro _
        right
        exact ⟨by simp, by omega⟩
      · intro _ hfalse
        cases hfalse
    · rw [Nat.compare_eq_lt.mpr h2]
      simp only [Ordering.swap]
      constructor
      · intro hfalse
        exact absurd rfl hfalse
      · intro hd
        omega
  · rw [Nat.compare_eq_lt.mpr h]
    simp only [Ordering.then]
    constructor
    · intro _
      left
      exact h
    · intro _ hfalse
      cases hfalse

instance : IsTotal Member memberLe :=
  ⟨fun a b => by
    rw [memberLe_iff, memberLe_iff]
    unfold displayLe
    omega⟩

instance : IsTrans Member memberLe :=
  ⟨fun a b c hab hbc => by
    rw [memberLe_iff] at hab hbc ⊢
    unfold displayLe at hab hbc ⊢
    omega⟩

/-- Claim C2: the display ordering is a permutation of the members, sorted by
local score descending with id ascending among equal scores, and the rank
numbers are exactly 1, 2, 3, ... by position (ties are not collapsed). -/
theorem c2_leaderboard_ranking (ms : List Member) :
    (sortMembers ms).Perm ms ∧
    List.Sorted displayLe (sortMembers ms) ∧
    (rankMembers ms).map Prod.fst = sortMembers ms ∧
    (rankMembers ms).map Prod.snd = List.range' 1 ms.length := by
  have hlen : (sortMembers ms).length = ms.length :=
    List.length_insertionSort memberLe ms
  refine ⟨List.perm_insertionSort memberLe ms, ?_, ?_, ?_⟩
  · exact (List.sorted_insertionSort memberLe ms).imp
      (fun {a b} h => (memberLe_iff a b).mp h)
  · unfold rankMembers
    rw [List.map_fst_zip]
    rw [List.length_range']
  · unfold rankMembers
    rw [List.map_snd_zip, hlen]
    rw [List.length_range']

/-! ### Star grid glyphs (src/aoc-client/src/lib.rs lines 822-843) -/

/-- Claim C7: a day beyond the last unlocked day renders blank; an unlocked
day renders gold with 2 recorded tags, silver with 1, dim with 0; the example
member with last unlocked day 3 renders gold, silver, dim then 22 blanks. -/
theorem c7_star_grid (m : Member) (lastUnlockedDay day : Nat) :
    (lastUnlockedDay < day →
      starGlyph m lastUnlockedDay day = StarGlyph.blank) ∧
    (day ≤ lastUnlockedDay → m.count_stars day = 2 →
      starGlyph m lastUnlockedDay day = StarGlyph.gold) ∧
    (day ≤ lastUnlockedDay → m.count_stars day = 1 →
      starGlyph m lastUnlockedDay day = StarGlyph.silver) ∧
    (day ≤ lastUnlockedDay → m.count_stars day = 0 →
      starGlyph m lastUnlockedDay day = StarGlyph.dim) ∧
    starRow gridExampleMember 3 =
      [StarGlyph.gold, StarGlyph.silver, StarGlyph.dim] ++
        List.replicate 22 StarGlyph.blank := by
  refine ⟨?_, ?_, ?_, ?_, by decide⟩
  · intro h
    unfold starGlyph
    rw [if_pos h]
  · intro h hc
    unfold starGlyph
    rw [if_neg (by omega), hc]
  · intro h hc
    unfold starGlyph
    rw [if_neg (by omega), hc]
  · intro h hc
    unfold starGlyph
    rw [if_neg (by omega), hc]

/-- Witness for C7 at the example member: all four glyph shapes appear at
days 1-4 with last unlocked day 3. -/
theorem c7_witness :
    starGlyph gridExampleMember 3 1 = StarGlyph.gold ∧
    starGlyph gridExampleMember 3 2 = StarGlyph.silver ∧
    starGlyph gridExampleMember 3 3 = StarGlyph.dim ∧
    starGlyph gridExampleMember 3 4 = StarGlyph.blank :=
  ⟨(c7_star_grid gridExampleMember 3 1).2.1 (by decide) (by decide),
   (c7_star_grid gridExampleMember 3 2).2.2.1 (by decide) (by decide),
   (c7_star_grid gridExampleMember 3 3).2.2.2.1 (by decide) (by decide),
   (c7_star_grid gridExampleMember 3 4).1 (by decide)⟩

/-! ### Client builder (src/aoc-client/src/lib.rs lines 159-170, 861-1076) -/

/-- Claim C8 as frozen is false on the code: year 300000 passes the year
setter (which checks only `2015 <= year`) and day 1 passes the day setter,
yet `build` returns `InvalidPuzzleDate`, because
`NaiveDate::from_ymd_opt(300000, 12, 1)` is `None` — chrono cannot represent
years beyond 262142 (262143 before chrono 0.4.32; 300000 exceeds both). -/
theorem c8_counterexample :
    ((builderDefault 80).setYear 300000 =
        Except.ok { builderDefault 80 with year := some 300000 }) ∧
    (({ builderDefault 80 with year := some 300000 } :
          AocClientBuilder).setDay 1 =
        Except.ok
          { builderDefault 80 with year := some 300000, day := some 1 }) ∧
    ({ builderDefault 80 with
        year := some 300000, day := some 1,
        session_cookie := some "abc123" } : AocClientBuilder).build =
      Except.error (AocError.InvalidPuzzleDate 1 300000) := by
  exact ⟨rfl, rfl, rfl⟩

/-- Claim C8, amended: for every year accepted by the year setter that chrono
can also represent (`2015 ≤ y ≤ 262142`) and every day `1..=25` accepted by
the day setter, `build` never returns `InvalidPuzzleDate`. -/
theorem c8_build_no_invalid_date (b : AocClientBuilder) (y : Int) (d : Nat)
    (hby : b.year = some y) (hbd : b.day = some d)
    (hy1 : FIRST_EVENT_YEAR ≤ y) (hy2 : y ≤ chronoMaxYear)
    (hd1 : FIRST_PUZZLE_DAY ≤ d) (hd2 : d ≤ LAST_PUZZLE_DAY) :
    ∀ (day : Nat) (year : Int),
      b.build ≠ Except.error (AocError.InvalidPuzzleDate day year) := by
  intro day year
  have hvalid : chronoYmdValid y DECEMBER d := by
    unfold chronoYmdValid chronoDaysInMonth chronoMinYear chronoMaxYear
      DECEMBER at *
    unfold FIRST_EVENT_YEAR at hy1
    unfold FIRST_PUZZLE_DAY LAST_PUZZLE_DAY at *
    norm_num
    omega
  unfold AocClientBuilder.build
  cases hsc : b.session_cookie with
  | none => simp
  | some cookie =>
    rw [hby, hbd]
    simp only
    rw [if_pos hvalid]
    simp

/-- Witness for C8's amended theorem: a builder holding year 2022 and day 1
can never produce `InvalidPuzzleDate 1 2022`. -/
theorem c8_witness :
    ({ builderDefault 80 with year := some 2022, day := some 1 } :
        AocClientBuilder).build ≠
      Except.error (AocError.InvalidPuzzleDate 1 2022) :=
  c8_build_no_invalid_date _ 2022 1 rfl rfl (by decide) (by decide)
    (by decide) (by decide) 1 2022

/-! ### Claim C6 -/

/-- Claim C6: puzzle-unlock checking is monotonic in the current instant.
For every puzzle date (year, day) — a client whose unlock instant is local
midnight of day/December/year in the UTC-5 release timezone — and instants
`t < t2`, unlocked at `t` implies unlocked at `t2`. -/
theorem c6_unlock_monotonic (y : Int) (d : Nat) (c : AocClient)
    (hc : c.unlock_ms = unlockInstantMs y d) (t t2 : Int)
    (hlt : t < t2) (ht : day_unlocked c t = true) :
    day_unlocked c t2 = true := by
  unfold day_unlocked at ht ⊢
  rw [decide_eq_true_eq] at ht ⊢
  omega

/-- Witness for C6 at the day-1-of-2022 unlock instant and the millisecond
right after it. -/
theorem c6_witness :
    day_unlocked
      { session_cookie := "abc123"
        unlock_ms := unlockInstantMs 2022 1
        year := 2022
        day := 1
        output_width := 80
        overwrite_files := false
        input_filename := "input"
        puzzle_filename := "puzzle.md"
        show_html_markup := false
        leaderboard_id := none }
      (unlockInstantMs 2022 1 + 1) = true :=
  c6_unlock_monotonic 2022 1 _ rfl (unlockInstantMs 2022 1)
    (unlockInstantMs 2022 1 + 1) (by omega)
    (by simp [day_unlocked])

/-! ### Claim C5: submission response classification
(src/aoc-client/src/lib.rs lines 324-348)

The response body is modelled as a list of characters; Rust
`str::contains(pattern)` is substring containment, `pattern <:+: body`. -/

/-- Claim C5 as frozen is false on the code: the body consisting of exactly
the phrase "not the right answer" contains that phrase, but the code only
recognises the longer phrase "That\x27s not the right answer", so
classification yields `AocResponseError` instead of `Incorrect`. -/
theorem c5_counterexample :
    ("not the right answer".toList <:+: "not the right answer".toList) ∧
    classify_submission "not the right answer".toList =
      Except.error AocError.AocResponseError :=
  ⟨List.infix_refl _, rfl⟩

/-- Claim C5, amended: ordered substring matching, first match wins, with the
second phrase being "That\x27s not the right answer" (not the spec's bare
"not the right answer"); a body matching none of the four known phrases
yields `AocResponseError`. -/
theorem c5_classification (body : List Char) :
    (RIGHT_ANSWER_PHRASE <:+: body →
      classify_submission body = Except.ok SubmissionOutcome.Correct) ∧
    (¬ RIGHT_ANSWER_PHRASE <:+: body → WRONG_ANSWER_PHRASE <:+: body →
      classify_submission body = Except.ok SubmissionOutcome.Incorrect) ∧
    (¬ RIGHT_ANSWER_PHRASE <:+: body → ¬ WRONG_ANSWER_PHRASE <:+: body →
      TOO_RECENT_PHRASE <:+: body →
      classify_submission body = Except.ok SubmissionOutcome.Wait) ∧
    (¬ RIGHT_ANSWER_PHRASE <:+: body → ¬ WRONG_ANSWER_PHRASE <:+: body →
      ¬ TOO_RECENT_PHRASE <:+: body → WRONG_LEVEL_PHRASE <:+: body →
      classify_submission body = Except.ok SubmissionOutcome.WrongLevel) ∧
    (¬ RIGHT_ANSWER_PHRASE <:+: body → ¬ WRONG_ANSWER_PHRASE <:+: body →
      ¬ TOO_RECENT_PHRASE <:+: body → ¬ WRONG_LEVEL_PHRASE <:+: body →
      classify_submission body = Except.error AocError.AocResponseError) := by
  unfold classify_submission
  refine ⟨?_, ?_, ?_, ?_, ?_⟩ <;> intros <;> simp [*]

/-- Witness for C5's amended theorem: the body that is exactly the
right-answer phrase classifies as `Correct`. -/
theorem c5_witness :
    classify_submission RIGHT_ANSWER_PHRASE =
      Except.ok SubmissionOutcome.Correct :=
  (c5_classification RIGHT_ANSWER_PHRASE).1 (List.infix_refl _)

/-! ### Claim C10: the session cookie setter
(src/aoc-client/src/lib.rs lines 927-937) -/

/-- Claim C10: the setter succeeds exactly when the trimmed input is
non-empty and all ASCII hex digits, storing the trimmed input; otherwise it
reports `InvalidSessionCookie` and leaves the whole builder unchanged. -/
theorem c10_session_cookie (b : AocClientBuilder) (s : String) :
    (rustTrim s ≠ "" → (rustTrim s).toList.all isAsciiHexDigit = true →
      b.session_cookie_st s =
        ({ b with session_cookie := some (rustTrim s) }, none)) ∧
    (rustTrim s = "" ∨ (rustTrim s).toList.all isAsciiHexDigit = false →
      b.session_cookie_st s = (b, some AocError.InvalidSessionCookie)) := by
  unfold AocClientBuilder.session_cookie_st
  constructor
  · intro h1 h2
    have hcond :
        ¬ ((rustTrim s).isEmpty || !((rustTrim s).toList.all isAsciiHexDigit))
            = true := by
      rw [h2]
      simp [String.isEmpty_iff, h1]
    rw [if_neg hcond]
  · intro h
    have hcond :
        ((rustTrim s).isEmpty || !((rustTrim s).toList.all isAsciiHexDigit))
            = true := by
      rcases h with h | h
      · rw [h]
        rfl
      · rw [h]
        simp
    rw [if_pos hcond]

/-- Witness for C10: a padded hexadecimal cookie is trimmed and stored, and a
non-hexadecimal cookie is rejected with the builder unchanged. -/
theorem c10_witness :
    ((builderDefault 80).session_cookie_st " abc123 " =
      ({ builderDefault 80 with session_cookie := some "abc123" }, none)) ∧
    ((builderDefault 80).session_cookie_st "xyz" =
      (builderDefault 80, some AocError.InvalidSessionCookie)) := by
  constructor
  · rw [(c10_session_cookie (builderDefault 80) " abc123 ").1
      (by decide) (by decide)]
    rfl
  · exact (c10_session_cookie (builderDefault 80) "xyz").2
      (Or.inr (by decide))

/-! ### Persisted configuration (src/aoc-client/src/lib.rs lines 1256-1305);
`ConfigOption<T>` is a wrapper around `Option<T>`, modelled directly as
`Option`. -/

/-- Claim C9: `set_config` modifies only the supplied fields — every field
whose argument is `none` keeps its loaded value, and every field whose
argument is `some v` becomes `v`. -/
theorem c9_set_config_frame (config : Config) (year : Option Int)
    (day : Option Nat) (session_filename : Option String)
    (width : Option Nat) (input_filename : Option String)
    (description_filename : Option String)
    (private_leaderboard_id : Option Nat) :
    (year = none →
      (set_config config year day session_filename width input_filename
        description_filename private_leaderboard_id).year = config.year) ∧
    (∀ v, year = some v →
      (set_config config year day session_filename width input_filename
        description_filename private_leaderboard_id).year = some v) ∧
    (day = none →
      (set_config config year day session_filename width input_filename
        description_filename private_leaderboard_id).day = config.day) ∧
    (∀ v, day = some v →
      (set_config config year day session_filename width input_filename
        description_filename private_leaderboard_id).day = some v) ∧
    (session_filename = none →
      (set_config config year day session_filename width input_filename
        description_filename private_leaderboard_id).session_file =
        config.session_file) ∧
    (∀ v, session_filename = some v →
      (set_config config year day session_filename width input_filename
        description_filename private_leaderboard_id).session_file = some v) ∧
    (width = none →
      (set_config config year day session_filename width input_filename
        description_filename private_leaderboard_id).width = config.width) ∧
    (∀ v, width = some v →
      (set_config config year day session_filename width input_filename
        description_filename private_leaderboard_id).width = some v) ∧
    (input_filename = none →
      (set_config config year day session_filename width input_filename
        description_filename private_leaderboard_id).input_filename =
        config.input_filename) ∧
    (∀ v, input_filename = some v →
      (set_config config year day session_filename width input_filename
        description_filename private_leaderboard_id).input_filename =
        some v) ∧
    (description_filename = none →
      (set_config config year day session_filename width input_filename
        description_filename private_leaderboard_id).description_filename =
        config.description_filename) ∧
    (∀ v, description_filename = some v →
      (set_config config year day session_filename width input_filename
        description_filename private_leaderboard_id).description_filename =
        some v) ∧
    (private_leaderboard_id = none →
      (set_config config year day session_filename width input_filename
        description_filename private_leaderboard_id).private_leaderboard_id =
        config.private_leaderboard_id) ∧
    (∀ v, private_leaderboard_id = some v →
      (set_config config year day session_filename width input_filename
        description_filename private_leaderboard_id).private_leaderboard_id =
        some v) := by
  unfold set_config
  cases year <;> cases day <;> cases session_filename <;> cases width <;>
    cases input_filename <;> cases description_filename <;>
    cases private_leaderboard_id <;> simp

/-- Witness for C9: updating only the day of a fully populated config keeps
every other field. -/
theorem c9_witness :
    (set_config
        (Config.mk (some 2021) (some 3) (some "sess") (some 100)
          (some "in.txt") (some "desc.md") (some 77))
        none (some 9) none none none none none).day = some 9 ∧
    (set_config
        (Config.mk (some 2021) (some 3) (some "sess") (some 100)
          (some "in.txt") (some "desc.md") (some 77))
        none (some 9) none none none none none).year = some 2021 :=
  ⟨(c9_set_config_frame
      (Config.mk (some 2021) (some 3) (some "sess") (some 100)
        (some "in.txt") (some "desc.md") (some 77))
      none (some 9) none none none none none).2.2.2.1 9 rfl,
   (c9_set_config_frame
      (Config.mk (some 2021) (some 3) (some "sess") (some 100)
        (some "in.txt") (some "desc.md") (some 77))
      none (some 9) none none none none none).1 rfl⟩

/-! ### CLI arguments and client construction (src/src/main.rs lines 71-173,
src/src/args.rs) -/

theorem except_bind_ok {α β : Type} (x : Except AocError α)
    (f : α → Except AocError β) (r : β)
    (h : (x >>= f) = Except.ok r) :
    ∃ a, x = Except.ok a ∧ f a = Except.ok r := by
  cases x with
  | error e => simp [Bind.bind, Except.bind] at h
  | ok a => exact ⟨a, rfl, by simpa [Bind.bind, Except.bind] using h⟩

theorem setYear_ok (b b2 : AocClientBuilder) (y : Int)
    (h : b.setYear y = Except.ok b2) :
    b2.year = some y ∧ b2.day = b.day ∧
      b2.session_cookie = b.session_cookie ∧
      b2.output_width = b.output_width ∧
      b2.input_filename = b.input_filename ∧
      b2.puzzle_filename = b.puzzle_filename ∧
      b2.overwrite_files = b.overwrite_files ∧
      b2.show_html_markup = b.show_html_markup ∧
      b2.leaderboard_id = b.leaderboard_id := by
  unfold AocClientBuilder.setYear at h
  split at h
  · injection h with h
    subst h
    simp
  · injection h

theorem setDay_ok (b b2 : AocClientBuilder) (d : Nat)
    (h : b.setDay d = Except.ok b2) :
    b2.day = some d ∧ b2.year = b.year ∧
      b2.session_cookie = b.session_cookie ∧
      b2.output_width = b.output_width ∧
      b2.input_filename = b.input_filename ∧
      b2.puzzle_filename = b.puzzle_filename ∧
      b2.overwrite_files = b.overwrite_files ∧
      b2.show_html_markup = b.show_html_markup ∧
      b2.leaderboard_id = b.leaderboard_id := by
  unfold AocClientBuilder.setDay at h
  split at h
  · injection h with h
    subst h
    simp
  · injection h

theorem set_output_width_ok (b b2 : AocClientBuilder) (w : Nat)
    (h : b.set_output_width w = Except.ok b2) :
    b2.output_width = w ∧ b2.year = b.year ∧ b2.day = b.day ∧
      b2.session_cookie = b.session_cookie ∧
      b2.input_filename = b.input_filename ∧
      b2.puzzle_filename = b.puzzle_filename ∧
      b2.overwrite_files = b.overwrite_files ∧
      b2.show_html_markup = b.show_html_markup ∧
      b2.leaderboard_id = b.leaderboard_id := by
  unfold AocClientBuilder.set_output_width at h
  split at h
  · injection h with h
    subst h
    simp
  · injection h

theorem latest_puzzle_day_core_ok (b b2 : AocClientBuilder) (y : Int)
    (now : ZonedNow) (h : b.latest_puzzle_day_core y now = Except.ok b2) :
    (∃ d, b2.day = some d) ∧ b2.year = b.year ∧
      b2.session_cookie = b.session_cookie ∧
      b2.output_width = b.output_width ∧
      b2.input_filename = b.input_filename ∧
      b2.puzzle_filename = b.puzzle_filename ∧
      b2.overwrite_files = b.overwrite_files ∧
      b2.show_html_markup = b.show_html_markup ∧
      b2.leaderboard_id = b.leaderboard_id := by
  unfold AocClientBuilder.latest_puzzle_day_core at h
  split at h
  · split at h <;>
      (obtain ⟨hd, hrest⟩ := setDay_ok _ _ _ h; exact ⟨⟨_, hd⟩, hrest⟩)
  · split at h <;>
      (obtain ⟨hd, hrest⟩ := setDay_ok _ _ _ h; exact ⟨⟨_, hd⟩, hrest⟩)

theorem latest_puzzle_day_ok (b b2 : AocClientBuilder) (now : ZonedNow)
    (h : b.latest_puzzle_day now = Except.ok b2) :
    (∃ d, b2.day = some d) ∧
      (∀ y, b.year = some y → b2.year = some y) ∧
      b2.session_cookie = b.session_cookie ∧
      b2.output_width = b.output_width ∧
      b2.input_filename = b.input_filename ∧
      b2.puzzle_filename = b.puzzle_filename ∧
      b2.overwrite_files = b.overwrite_files ∧
      b2.show_html_markup = b.show_html_markup ∧
      b2.leaderboard_id = b.leaderboard_id := by
  unfold AocClientBuilder.latest_puzzle_day at h
  split at h
  · obtain ⟨hd, hy, hrest⟩ := latest_puzzle_day_core_ok _ _ _ _ h
    exact ⟨hd, fun y0 hy0 => hy.trans hy0, hrest⟩
  · rename_i heq
    split at h
    · injection h
    · rename_i b1 heq1
      obtain ⟨hd, hy, hrest⟩ := latest_puzzle_day_core_ok _ _ _ _ h
      have heq1s : b.setYear (last_unlocked_year now) = Except.ok b1 := heq1
      obtain ⟨hy1, hd1, hrest1⟩ := setYear_ok _ _ _ heq1s
      obtain ⟨e1, e2, e3, e4, e5, e6, e7⟩ := hrest
      obtain ⟨f1, f2, f3, f4, f5, f6, f7⟩ := hrest1
      refine ⟨hd, ?_, e1.trans f1, e2.trans f2, e3.trans f3, e4.trans f4,
        e5.trans f5, e6.trans f6, e7.trans f7⟩
      intro y0 hy0
      rw [heq] at hy0
      cases hy0

theorem resolveYearDay_ok (b b2 : AocClientBuilder) (ay : Option Int)
    (ad : Option Nat) (cy : Option Int) (cd : Option Nat) (now : ZonedNow)
    (h : resolveYearDay b ay ad cy cd now = Except.ok b2) :
    (∀ y, ay = some y → b2.year = some y) ∧
      (ay = none → ∀ y, cy = some y → b2.year = some y) ∧
      (∀ d, ad = some d → b2.day = some d) ∧
      (ad = none → ∀ d, cd = some d → b2.day = some d) ∧
      b2.session_cookie = b.session_cookie ∧
      b2.output_width = b.output_width ∧
      b2.input_filename = b.input_filename ∧
      b2.puzzle_filename = b.puzzle_filename ∧
      b2.overwrite_files = b.overwrite_files ∧
      b2.show_html_markup = b.show_html_markup ∧
      b2.leaderboard_id = b.leaderboard_id := by
  rcases ay with - | yA <;> rcases ad with - | dA <;>
    rcases cy with - | yC <;> rcases cd with - | dC <;>
    simp only [resolveYearDay] at h <;>
    obtain ⟨b1, h1, h2⟩ := except_bind_ok _ _ _ h <;>
    obtain ⟨hy1, hd1, hrest1⟩ := setYear_ok _ _ _ h1
  · obtain ⟨⟨d2, hd2⟩, himp, hrest2⟩ := latest_puzzle_day_ok _ _ _ h2
    have hy2 := himp _ hy1
    simp_all
  · obtain ⟨hd2, hy2, hrest2⟩ := setDay_ok _ _ _ h2
    simp_all
  · obtain ⟨⟨d2, hd2⟩, himp, hrest2⟩ := latest_puzzle_day_ok _ _ _ h2
    have hy2 := himp _ hy1
    simp_all
  · obtain ⟨hd2, hy2, hrest2⟩ := setDay_ok _ _ _ h2
    simp_all
  · obtain ⟨hd2, hy2, hrest2⟩ := setDay_ok _ _ _ h2
    simp_all
  · obtain ⟨hd2, hy2, hrest2⟩ := setDay_ok _ _ _ h2
    simp_all
  · obtain ⟨hd2, hy2, hrest2⟩ := setDay_ok _ _ _ h2
    simp_all
  · obtain ⟨hd2, hy2, hrest2⟩ := setDay_ok _ _ _ h2
    simp_all
  · obtain ⟨⟨d2, hd2⟩, himp, hrest2⟩ := latest_puzzle_day_ok _ _ _ h2
    have hy2 := himp _ hy1
    simp_all
  · obtain ⟨hd2, hy2, hrest2⟩ := setDay_ok _ _ _ h2
    simp_all
  · obtain ⟨⟨d2, hd2⟩, himp, hrest2⟩ := latest_puzzle_day_ok _ _ _ h2
    have hy2 := himp _ hy1
    simp_all
  · obtain ⟨hd2, hy2, hrest2⟩ := setDay_ok _ _ _ h2
    simp_all
  · obtain ⟨hd2, hy2, hrest2⟩ := setDay_ok _ _ _ h2
    simp_all
  · obtain ⟨hd2, hy2, hrest2⟩ := setDay_ok _ _ _ h2
    simp_all
  · obtain ⟨hd2, hy2, hrest2⟩ := setDay_ok _ _ _ h2
    simp_all
  · obtain ⟨hd2, hy2, hrest2⟩ := setDay_ok _ _ _ h2
    simp_all

theorem resolveWidth_ok (b b2 : AocClientBuilder) (aw cw : Option Nat)
    (h : resolveWidth b aw cw = Except.ok b2) :
    (∀ w, aw = some w → b2.output_width = w) ∧
      (aw = none → ∀ w, cw = some w → b2.output_width = w) ∧
      (aw = none → cw = none → b2.output_width = b.output_width) ∧
      b2.session_cookie = b.session_cookie ∧
      b2.year = b.year ∧ b2.day = b.day ∧
      b2.input_filename = b.input_filename ∧
      b2.puzzle_filename = b.puzzle_filename ∧
      b2.overwrite_files = b.overwrite_files ∧
      b2.show_html_markup = b.show_html_markup ∧
      b2.leaderboard_id = b.leaderboard_id := by
  rcases aw with - | wA <;> rcases cw with - | wC <;>
    simp only [resolveWidth] at h
  · injection h with h
    subst h
    simp
  · obtain ⟨hw, hrest⟩ := set_output_width_ok _ _ _ h
    simp_all
  · obtain ⟨hw, hrest⟩ := set_output_width_ok _ _ _ h
    simp_all
  · obtain ⟨hw, hrest⟩ := set_output_width_ok _ _ _ h
    simp_all

theorem resolveInputFilename_ok (b : AocClientBuilder) (cfgI : Option String)
    (argI : String) :
    (∀ f, cfgI = some f → argI = DEFAULT_PUZZLE_INPUT →
      (resolveInputFilename b cfgI argI).input_filename = f) ∧
      (cfgI = none ∨ argI ≠ DEFAULT_PUZZLE_INPUT →
        (resolveInputFilename b cfgI argI).input_filename = argI) ∧
      (resolveInputFilename b cfgI argI).session_cookie = b.session_cookie ∧
      (resolveInputFilename b cfgI argI).year = b.year ∧
      (resolveInputFilename b cfgI argI).day = b.day ∧
      (resolveInputFilename b cfgI argI).output_width = b.output_width ∧
      (resolveInputFilename b cfgI argI).puzzle_filename =
        b.puzzle_filename ∧
      (resolveInputFilename b cfgI argI).overwrite_files =
        b.overwrite_files ∧
      (resolveInputFilename b cfgI argI).show_html_markup =
        b.show_html_markup ∧
      (resolveInputFilename b cfgI argI).leaderboard_id =
        b.leaderboard_id := by
  rcases cfgI with - | f0 <;> rcases hbe : (argI == DEFAULT_PUZZLE_INPUT) <;>
    simp only [resolveInputFilename, hbe] <;>
    simp_all [beq_iff_eq]

theorem resolvePuzzleFilename_ok (b : AocClientBuilder)
    (cfgD : Option String) (argP : String) :
    (∀ f, cfgD = some f → argP = DEFAULT_PUZZLE_DESCRIPTION →
      (resolvePuzzleFilename b cfgD argP).puzzle_filename = f) ∧
      (cfgD = none ∨ argP ≠ DEFAULT_PUZZLE_DESCRIPTION →
        (resolvePuzzleFilename b cfgD argP).puzzle_filename = argP) ∧
      (resolvePuzzleFilename b cfgD argP).session_cookie =
        b.session_cookie ∧
      (resolvePuzzleFilename b cfgD argP).year = b.year ∧
      (resolvePuzzleFilename b cfgD argP).day = b.day ∧
      (resolvePuzzleFilename b cfgD argP).output_width = b.output_width ∧
      (resolvePuzzleFilename b cfgD argP).input_filename =
        b.input_filename ∧
      (resolvePuzzleFilename b cfgD argP).overwrite_files =
        b.overwrite_files ∧
      (resolvePuzzleFilename b cfgD argP).show_html_markup =
        b.show_html_markup ∧
      (resolvePuzzleFilename b cfgD argP).leaderboard_id =
        b.leaderboard_id := by
  rcases cfgD with - | f0 <;>
    rcases hbe : (argP == DEFAULT_PUZZLE_DESCRIPTION) <;>
    simp only [resolvePuzzleFilename, hbe] <;>
    simp_all [beq_iff_eq]

theorem finalizeBuilder_fields (b : AocClientBuilder) (args : Args)
    (config : Config) :
    (finalizeBuilder b args config).session_cookie = b.session_cookie ∧
      (finalizeBuilder b args config).year = b.year ∧
      (finalizeBuilder b args config).day = b.day ∧
      (finalizeBuilder b args config).output_width = b.output_width ∧
      (finalizeBuilder b args config).input_filename = b.input_filename ∧
      (finalizeBuilder b args config).puzzle_filename = b.puzzle_filename ∧
      (finalizeBuilder b args config).overwrite_files = args.overwrite ∧
      (finalizeBuilder b args config).show_html_markup =
        args.show_html_markup ∧
      (finalizeBuilder b args config).leaderboard_id =
        config.private_leaderboard_id :=
  ⟨rfl, rfl, rfl, rfl, rfl, rfl, rfl, rfl, rfl⟩

theorem session_cookie_st_ok (b : AocClientBuilder) (s : String)
    (b2 : AocClientBuilder) (h : b.session_cookie_st s = (b2, none)) :
    b2 = { b with session_cookie := some (rustTrim s) } := by
  simp only [AocClientBuilder.session_cookie_st] at h
  split at h
  · injection h with h1 h2
    injection h2
  · injection h with h1 h2
    exact h1.symm

theorem build_ok (b : AocClientBuilder) (c : AocClient)
    (h : b.build = Except.ok c) :
    b.session_cookie = some c.session_cookie ∧
      b.year = some c.year ∧
      b.day = some c.day ∧
      c.output_width = b.output_width ∧
      c.input_filename = b.input_filename ∧
      c.puzzle_filename = b.puzzle_filename ∧
      c.overwrite_files = b.overwrite_files ∧
      c.show_html_markup = b.show_html_markup ∧
      c.leaderboard_id = b.leaderboard_id := by
  unfold AocClientBuilder.build at h
  split at h
  · injection h
  · injection h
  · injection h
  · rename_i cookie year day
    split at h
    · injection h with h
      subst h
      simp_all
    · injection h

/-- Claim C4: with config year 2022, no config day and no CLI year or day,
and "now" (in the UTC-5 release timezone) outside December of a year greater
than 2022, the joint (year, day) resolution delegates to the
latest-puzzle-day logic for 2022 and yields year 2022, day 25. -/
theorem c4_joint_resolution (b : AocClientBuilder) (now : ZonedNow)
    (hyear : 2022 < now.year) (hmonth : now.month ≠ DECEMBER) :
    resolveYearDay b none none (some 2022) none now =
      (b.setYear 2022 >>= fun b2 => b2.latest_puzzle_day now) ∧
    ∃ b2,
      resolveYearDay b none none (some 2022) none now = Except.ok b2 ∧
        b2.year = some 2022 ∧ b2.day = some LAST_PUZZLE_DAY := by
  have hsetYear : b.setYear 2022 = Except.ok { b with year := some 2022 } := by
    unfold AocClientBuilder.setYear
    rw [if_pos (by decide)]
  have hcore :
      ({ b with year := some 2022 } : AocClientBuilder).latest_puzzle_day now
        = Except.ok
            { b with year := some 2022, day := some LAST_PUZZLE_DAY } := by
    show ({ b with year := some 2022 } :
        AocClientBuilder).latest_puzzle_day_core 2022 now = _
    unfold AocClientBuilder.latest_puzzle_day_core
    rw [if_neg, if_pos hyear]
    · unfold AocClientBuilder.setDay
      rw [if_pos (by decide)]
    · rintro ⟨-, hm⟩
      exact hmonth hm
  refine ⟨rfl, { b with year := some 2022, day := some LAST_PUZZLE_DAY },
    ?_, rfl, rfl⟩
  show (b.setYear 2022 >>= fun b2 => b2.latest_puzzle_day now) = _
  rw [hsetYear]
  show ({ b with year := some 2022 } : AocClientBuilder).latest_puzzle_day now
      = _
  exact hcore

/-- Witness for C4 with the default builder and now = 2026-10-12. -/
theorem c4_witness :
    ∃ b2,
      resolveYearDay (builderDefault 80) none none (some 2022) none
          (ZonedNow.mk 2026 10 12) = Except.ok b2 ∧
        b2.year = some 2022 ∧ b2.day = some LAST_PUZZLE_DAY :=
  (c4_joint_resolution (builderDefault 80) (ZonedNow.mk 2026 10 12)
    (by decide) (by decide)).2

/-! ### Claim C3 -/

/-- Claim C3: per-field precedence of `build_client`. Whenever construction
succeeds, a CLI-supplied year/day/width wins over the config file, the
config-file value wins over the built-in default when the CLI value is
absent, the filename fields take the config value exactly when the CLI value
equals the compiled-in default, the session source is CLI file over config
file over default locations, and the leaderboard id resolved at display time
is the CLI id over the config id over the no-id error. -/
theorem c3_config_precedence (args : Args) (config : Config) (now : ZonedNow)
    (tw : Nat) (rs : SessionSource → String) (c : AocClient)
    (h : build_client args config now tw rs = Except.ok c) :
    (∀ y, args.year = some y → c.year = y) ∧
    (args.year = none → ∀ y, config.year = some y → c.year = y) ∧
    (∀ d, args.day = some d → c.day = d) ∧
    (args.day = none → ∀ d, config.day = some d → c.day = d) ∧
    (∀ w, args.width = some w → c.output_width = w) ∧
    (args.width = none → ∀ w, config.width = some w → c.output_width = w) ∧
    (args.width = none → config.width = none → c.output_width = tw) ∧
    (∀ f, config.input_filename = some f →
      args.input_file = DEFAULT_PUZZLE_INPUT → c.input_filename = f) ∧
    (config.input_filename = none ∨ args.input_file ≠ DEFAULT_PUZZLE_INPUT →
      c.input_filename = args.input_file) ∧
    (∀ f, config.description_filename = some f →
      args.puzzle_file = DEFAULT_PUZZLE_DESCRIPTION →
      c.puzzle_filename = f) ∧
    (config.description_filename = none ∨
        args.puzzle_file ≠ DEFAULT_PUZZLE_DESCRIPTION →
      c.puzzle_filename = args.puzzle_file) ∧
    (c.session_cookie = rustTrim (rs (resolveSessionSource args.session_file
      config.session_file))) ∧
    (c.leaderboard_id = config.private_leaderboard_id) ∧
    (∀ lid, resolve_leaderboard_id c (some lid) = Except.ok lid) ∧
    (resolve_leaderboard_id c none =
      match config.private_leaderboard_id with
      | some lid => Except.ok lid
      | none => Except.error AocError.PrivateLeaderboardNoId) := by
  unfold build_client at h
  split at h
  · injection h
  · rename_i b0 heq0
    split at h
    · injection h
    · rename_i b1 heq1
      split at h
      · injection h
      · rename_i b2 heq2
        have hb0 := session_cookie_st_ok _ _ _ heq0
        have hb0w : b0.output_width = tw := by
          rw [hb0]
          rfl
        have hb0s : b0.session_cookie =
            some (rustTrim (rs (resolveSessionSource args.session_file
              config.session_file))) := by
          rw [hb0]
        obtain ⟨hyA, hyC, hdA, hdC, s1, s2, s3, s4, s5, s6, s7⟩ :=
          resolveYearDay_ok _ _ _ _ _ _ _ heq1
        obtain ⟨hwA, hwC, hwD, w1, w2, w3, w4, w5, w6, w7, w8⟩ :=
          resolveWidth_ok _ _ _ _ heq2
        obtain ⟨hiA, hiB, i1, i2, i3, i4, i5, i6, i7, i8⟩ :=
          resolveInputFilename_ok b2 config.input_filename args.input_file
        obtain ⟨hpA, hpB, p1, p2, p3, p4, p5, p6, p7, p8⟩ :=
          resolvePuzzleFilename_ok
            (resolveInputFilename b2 config.input_filename args.input_file)
            config.description_filename args.puzzle_file
        obtain ⟨g1, g2, g3, g4, g5, g6, g7, g8, g9⟩ :=
          finalizeBuilder_fields
            (resolvePuzzleFilename
              (resolveInputFilename b2 config.input_filename args.input_file)
              config.description_filename args.puzzle_file)
            args config
        obtain ⟨k1, k2, k3, k4, k5, k6, k7, k8, k9⟩ := build_ok _ _ h
        refine ⟨?_, ?_, ?_, ?_, ?_, ?_, ?_, ?_, ?_, ?_, ?_, ?_, ?_, ?_, ?_⟩
        · intro y hy
          have hch : (finalizeBuilder
              (resolvePuzzleFilename
                (resolveInputFilename b2 config.input_filename
                  args.input_file)
                config.description_filename args.puzzle_file)
              args config).year = some y := by
            rw [g2, p2, i2, w2]
            exact hyA y hy
          have h2 := k2.symm.trans hch
          injection h2
        · intro hynone y hy
          have hch : (finalizeBuilder
              (resolvePuzzleFilename
                (resolveInputFilename b2 config.input_filename
                  args.input_file)
                config.description_filename args.puzzle_file)
              args config).year = some y := by
            rw [g2, p2, i2, w2]
            exact hyC hynone y hy
          have h2 := k2.symm.trans hch
          injection h2
        · intro d hd
          have hch : (finalizeBuilder
              (resolvePuzzleFilename
                (resolveInputFilename b2 config.input_filename
                  args.input_file)
                config.description_filename args.puzzle_file)
              args config).day = some d := by
            rw [g3, p3, i3, w3]
            exact hdA d hd
          have h2 := k3.symm.trans hch
          injection h2
        · intro hdnone d hd
          have hch : (finalizeBuilder
              (resolvePuzzleFilename
                (resolveInputFilename b2 config.input_filename
                  args.input_file)
                config.description_filename args.puzzle_file)
              args config).day = some d := by
            rw [g3, p3, i3, w3]
            exact hdC hdnone d hd
          have h2 := k3.symm.trans hch
          injection h2
        · intro w hw
          rw [k4, g4, p4, i4]
          exact hwA w hw
        · intro hwnone w hw
          rw [k4, g4, p4, i4]
          exact hwC hwnone w hw
        · intro h1 h2
          rw [k4, g4, p4, i4, hwD h1 h2, s2, hb0w]
        · intro f hf hd
          rw [k5, g5, p5]
          exact hiA f hf hd
        · intro hdisj
          rw [k5, g5, p5]
          exact hiB hdisj
        · intro f hf hd
          rw [k6, g6]
          exact hpA f hf hd
        · intro hdisj
          rw [k6, g6]
          exact hpB hdisj
        · have hch : (finalizeBuilder
              (resolvePuzzleFilename
                (resolveInputFilename b2 config.input_filename
                  args.input_file)
                config.description_filename args.puzzle_file)
              args config).session_cookie =
              some (rustTrim (rs (resolveSessionSource args.session_file
                config.session_file))) := by
            rw [g1, p1, i1, w1, s1, hb0s]
          have h2 := k1.symm.trans hch
          injection h2
        · rw [k9, g9]
        · intro lid
          rfl
        · have h13 : c.leaderboard_id = config.private_leaderboard_id := by
            rw [k9, g9]
          show (match c.leaderboard_id with
            | some lid => Except.ok lid
            | none => Except.error AocError.PrivateLeaderboardNoId) = _
          rw [h13]

/-- Witness for C3: in the example scenario the CLI year and width win, the
day comes from the config file, the input filename comes from the config
file because the CLI one equals the default, and the puzzle filename is the
explicitly supplied CLI one. -/
theorem c3_witness :
    c3ExampleClient.year = 2022 ∧ c3ExampleClient.day = 3 ∧
      c3ExampleClient.output_width = 100 ∧
      c3ExampleClient.input_filename = "cfg_in" ∧
      c3ExampleClient.puzzle_filename = "custom.md" := by
  have h : build_client c3ExampleArgs c3ExampleConfig (ZonedNow.mk 2026 10 12)
      80 c3ExampleRead = Except.ok c3ExampleClient := by rfl
  have T := c3_config_precedence c3ExampleArgs c3ExampleConfig
    (ZonedNow.mk 2026 10 12) 80 c3ExampleRead c3ExampleClient h
  refine ⟨T.1 2022 rfl, T.2.2.2.1 rfl 3 rfl, T.2.2.2.2.1 100 rfl,
    T.2.2.2.2.2.2.2.1 "cfg_in" rfl rfl, ?_⟩
  exact T.2.2.2.2.2.2.2.2.2.2.1 (Or.inr (by decide))

end Aoc
